import Mathlib

/-
Verification of the OAuth-with-PKCE Flask demo (flask-app-with-oauth.py).

The file embeds the two request handlers of `create_flask_app` — the
`/callback` route and the `/` (index) route — as pure Lean functions over an
explicit session state.  External collaborators (the SDK's consent
generation and callback-parameter exchange, the token endpoint, the
statement-execution endpoint, pandas rendering) are modelled from the
specification's contracts; where this is done the doc comment says so.
An uncaught Python exception in a handler is modelled as `Except.error`,
in which case the web framework discards the handler's session mutations
and serves a generic server error page.
-/

namespace FlaskOAuth

/-- OAuth client configuration, as built by `init_oauth_config`:
host, client_id, client_secret, redirect_url, scopes. -/
structure OAuthClient where
  host : String
  client_id : String
  client_secret : String
  redirect_url : String
  scopes : List String
  deriving DecidableEq

/-- Credentials: the access/refresh token pair and expiry stored in
`session["creds"]` after a successful exchange. -/
structure Credentials where
  access_token : String
  refresh_token : String
  expiry : Nat
  deriving DecidableEq

/-- Consent Request: verifier, challenge, state and authorization URL,
stored in `session["consent"]` per login attempt. -/
structure Consent where
  verifier : String
  challenge : String
  state : String
  auth_url : String
  deriving DecidableEq

/-- The per-browser server-side session: optional consent record and
optional credentials, the only mutable state the handlers touch. -/
structure Session where
  consent : Option Consent
  creds : Option Credentials
  deriving DecidableEq

/-- Query parameters of the provider redirect hitting `GET /callback`:
`code`, `state` and `error`, each possibly absent. -/
structure CallbackParams where
  code : Option String
  state : Option String
  error : Option String
  deriving DecidableEq

/-- Failures of the callback-parameter exchange (spec taxonomy):
state mismatch, provider-reported denial, or token-endpoint failure. -/
inductive ExchangeError where
  | stateMismatch : ExchangeError
  | authorizationDenied : String → ExchangeError
  | tokenExchange : String → ExchangeError
  deriving DecidableEq

/-- An uncaught Python exception escaping a handler: a KeyError from a
missing session key, or an exchange failure raised by the SDK. -/
inductive AppError where
  | keyError : String → AppError
  | exchangeFailed : ExchangeError → AppError
  deriving DecidableEq

/-- An HTTP response: a redirect, or the rendered index page carrying the
flashed messages and, optionally, the rendered result table. -/
inductive Response where
  | redirect : String → Response
  | page : List String → Option String → Response
  deriving DecidableEq

/-- Query Result: ordered column names and ordered row data, as read off
`text_results.manifest.schema.columns` and `text_results.result.data_array`. -/
structure QueryResult where
  columns : List String
  data_array : List (List String)
  deriving DecidableEq

/-- The provider's token endpoint, an external collaborator: maps an
authorization code and a verifier to credentials or a failure message. -/
def TokenEndpoint : Type := String → String → Except String Credentials

/-- The downstream statement-execution endpoint, an external collaborator
(`workspace_client.statement_execution.execute_statement`): takes the
authenticating credentials and the statement, returns a result or the
provider's error message. -/
def ExecEndpoint : Type := Credentials → String → Except String QueryResult

/-- Modelled from the spec: `build_auth_url` (§4.2) composes the provider's
authorization endpoint with client_id, redirect_url, scopes, challenge and
state as query parameters; the SDK performs this inside
`initiate_consent`, outside this repository. -/
def build_auth_url (oc : OAuthClient) (challenge state : String) : String :=
  oc.host ++ "/oidc/v1/authorize" ++ "?client_id=" ++ oc.client_id ++
    "&redirect_uri=" ++ oc.redirect_url ++
    "&scope=" ++ String.intercalate " " oc.scopes ++
    "&code_challenge=" ++ challenge ++
    "&state=" ++ state

/-- Modelled from the spec: `oauth_client.initiate_consent()` (§4.1, §4.2)
packages a freshly generated verifier/challenge/state triple together with
the derived authorization URL; the generation itself lives in the SDK,
outside this repository, so the generator's random output is a parameter. -/
def initiate_consent (oc : OAuthClient) (verifier challenge state : String) : Consent :=
  { verifier := verifier, challenge := challenge, state := state,
    auth_url := build_auth_url oc challenge state }

/-- Modelled from the spec: `consent.exchange_callback_parameters` (§4.3)
lives in the SDK, outside this repository.  It validates that the callback
state equals the consent's stored state (failing closed on mismatch),
rejects a provider-supplied error parameter, and otherwise exchanges the
authorization code together with the verifier at the token endpoint. -/
def exchange_callback_parameters (tok : TokenEndpoint) (c : Consent)
    (params : CallbackParams) : Except ExchangeError Credentials :=
  if params.state ≠ some c.state then
    .error .stateMismatch
  else
    match params.error with
    | some e => .error (.authorizationDenied e)
    | none =>
      match params.code with
      | none => .error (.tokenExchange "no authorization code returned")
      | some code =>
        match tok code c.verifier with
        | .error m => .error (.tokenExchange m)
        | .ok creds => .ok creds

/-- Modelled from the spec: pandas `DataFrame.to_html` (Presentation Layer,
§4.6, an external collaborator) renders the query result as an HTML table. -/
def df_to_html (qr : QueryResult) : String :=
  "<table>" ++
    String.intercalate "" (qr.columns.map (fun c => "<th>" ++ c ++ "</th>")) ++
    String.intercalate "" (qr.data_array.map (fun row =>
      "<tr>" ++ String.intercalate "" (row.map (fun v => "<td>" ++ v ++ "</td>")) ++ "</tr>")) ++
    "</table>"

/-- The `/callback` route (flask-app-with-oauth.py lines 58-66).  It reads
`session["consent"]` (a KeyError if absent), exchanges the callback
parameters, stores the resulting credentials in `session["creds"]` and
redirects to the index page.  The handler wraps nothing in try/except, so
any failure surfaces as an uncaught exception (`Except.error`); the source
never removes the consent record from the session. -/
def callback (tok : TokenEndpoint) (s : Session) (params : CallbackParams) :
    Except AppError (Session × Response) :=
  match s.consent with
  | none => .error (.keyError "consent")
  | some consent =>
    match exchange_callback_parameters tok consent params with
    | .error e => .error (.exchangeFailed e)
    | .ok creds => .ok ({ s with creds := some creds }, .redirect "index")

/-- The session as persisted after a `/callback` request: the web framework
saves the handler's session mutations only when the handler returns a
response; on an uncaught exception the session is left as it was. -/
def sessionAfterCallback (tok : TokenEndpoint) (s : Session)
    (params : CallbackParams) : Session :=
  match callback tok s params with
  | .ok r => r.1
  | .error _ => s

/-- Outcome of one `index` request: the session after the request, the
response, the statements sent to the statement-execution endpoint during
the request, and the log records the handler itself writes (the handler
body contains no logging call, so this is always empty). -/
structure HandlerResult where
  session : Session
  response : Response
  executedStatements : List String
  logOutput : List String
  deriving DecidableEq

/-- The `/` (index) route (flask-app-with-oauth.py lines 68-109).  If the
session holds no credentials it initiates a consent, stores it in the
session and redirects to the consent's authorization URL.  Otherwise, on a
validated form submission (`formData = some query`, i.e. a POST whose form
validates; `none` models a GET or a failed validation) it executes the
statement downstream: on failure it flashes the error message and renders
the bare form, on success it renders the form with the result table.  With
no submission it renders the bare form.  The authenticated branch never
writes to the session. -/
def index (oc : OAuthClient) (verifier challenge state : String)
    (exec : ExecEndpoint) (formData : Option String) (s : Session) : HandlerResult :=
  match s.creds with
  | none =>
    let consent := initiate_consent oc verifier challenge state
    { session := { s with consent := some consent },
      response := .redirect consent.auth_url,
      executedStatements := [], logOutput := [] }
  | some creds =>
    match formData with
    | some query =>
      match exec creds query with
      | .error e =>
        { session := s, response := .page [e] none,
          executedStatements := [query], logOutput := [] }
      | .ok res =>
        { session := s, response := .page [] (some (df_to_html res)),
          executedStatements := [query], logOutput := [] }
    | none =>
      { session := s, response := .page [] none,
        executedStatements := [], logOutput := [] }

/-- A concrete client configuration used by the concrete witnesses below. -/
def demoClient : OAuthClient :=
  { host := "https://adb.example.net", client_id := "cid", client_secret := "sec",
    redirect_url := "http://localhost:5001/callback", scopes := ["all-apis"] }

/-- A concrete consent record with state "S1". -/
def demoConsent : Consent := initiate_consent demoClient "ver" "chal" "S1"

/-- Concrete unexpired credentials. -/
def demoCreds : Credentials :=
  { access_token := "acc-tok", refresh_token := "ref-tok", expiry := 100 }

/-- Concrete credentials that are already past expiry. -/
def expiredCreds : Credentials :=
  { access_token := "old-tok", refresh_token := "old-ref", expiry := 0 }

/-- A token endpoint that always issues `demoCreds`. -/
def tokOk : TokenEndpoint := fun _ _ => .ok demoCreds

/-- A statement-execution endpoint that always fails with a provider
message (as a failed refresh exchange or a malformed statement would). -/
def execFail : ExecEndpoint := fun _ _ => .error "Invalid refresh token"

/-- A statement-execution endpoint returning a one-row, one-column result. -/
def execOk : ExecEndpoint := fun _ _ => .ok { columns := ["1"], data_array := [["1"]] }

/-- A session holding neither consent nor credentials. -/
def sessionEmpty : Session := { consent := none, creds := none }

/-- A session holding a consent and no credentials (mid-login). -/
def sessionConsent : Session := { consent := some demoConsent, creds := none }

/-- An authenticated session (consent still present, credentials stored). -/
def sessionAuth : Session := { consent := some demoConsent, creds := some demoCreds }

/-- An authenticated session whose stored credentials are expired. -/
def sessionExpired : Session := { consent := some demoConsent, creds := some expiredCreds }

/-- Callback parameters with a state not matching `demoConsent`. -/
def paramsBadState : CallbackParams :=
  { code := some "ABC", state := some "WRONG", error := none }

/-- Callback parameters with a valid code and the matching state "S1". -/
def paramsGood : CallbackParams :=
  { code := some "ABC", state := some "S1", error := none }

/-- Unfolding lemma: when the session holds a consent, `callback` is the
case analysis of the exchange on that consent. -/
theorem callback_consent (tok : TokenEndpoint) (s : Session) (c : Consent)
    (p : CallbackParams) (hc : s.consent = some c) :
    callback tok s p =
      match exchange_callback_parameters tok c p with
      | .error e => .error (.exchangeFailed e)
      | .ok creds => .ok ({ s with creds := some creds }, .redirect "index") := by
  unfold callback
  rw [hc]

/-- Unfolding lemma: a state mismatch makes the exchange fail closed. -/
theorem exchange_state_mismatch (tok : TokenEndpoint) (c : Consent)
    (p : CallbackParams) (hst : p.state ≠ some c.state) :
    exchange_callback_parameters tok c p = .error .stateMismatch := by
  unfold exchange_callback_parameters
  rw [if_pos hst]

/-- Unfolding lemma: with a matching state, no error parameter and a code,
the exchange returns whatever the token endpoint answers for the code and
the consent's verifier. -/
theorem exchange_success (tok : TokenEndpoint) (c : Consent)
    (p : CallbackParams) (code : String) (creds : Credentials)
    (hstate : p.state = some c.state) (herr : p.error = none)
    (hcode : p.code = some code) (htok : tok code c.verifier = .ok creds) :
    exchange_callback_parameters tok c p = .ok creds := by
  have hne : ¬ p.state ≠ some c.state := by
    rw [hstate]
    exact fun h => h rfl
  unfold exchange_callback_parameters
  rw [if_neg hne, herr, hcode]
  simp only [htok]

/-- Unfolding lemma: with no credentials in the session, `index` stores a
fresh consent and redirects, executing nothing. -/
theorem index_unauth (oc : OAuthClient) (v ch st : String) (exec : ExecEndpoint)
    (formData : Option String) (s : Session) (h : s.creds = none) :
    index oc v ch st exec formData s =
      { session := { s with consent := some (initiate_consent oc v ch st) },
        response := .redirect (initiate_consent oc v ch st).auth_url,
        executedStatements := [], logOutput := [] } := by
  unfold index
  rw [h]

/-- Unfolding lemma: with credentials in the session and a validated form
submission, `index` is the case analysis of the downstream execution. -/
theorem index_post (oc : OAuthClient) (v ch st : String) (exec : ExecEndpoint)
    (q : String) (s : Session) (creds : Credentials) (h : s.creds = some creds) :
    index oc v ch st exec (some q) s =
      match exec creds q with
      | .error e =>
        { session := s, response := .page [e] none,
          executedStatements := [q], logOutput := [] }
      | .ok res =>
        { session := s, response := .page [] (some (df_to_html res)),
          executedStatements := [q], logOutput := [] } := by
  unfold index
  rw [h]

/-- Unfolding lemma: with credentials in the session and no form
submission, `index` renders the bare form and touches nothing. -/
theorem index_get_auth (oc : OAuthClient) (v ch st : String) (exec : ExecEndpoint)
    (s : Session) (creds : Credentials) (h : s.creds = some creds) :
    index oc v ch st exec none s =
      { session := s, response := .page [] none,
        executedStatements := [], logOutput := [] } := by
  unfold index
  rw [h]

/-- Claim C1: a callback whose state parameter does not match the state of
the consent stored in the session is rejected (the exchange fails with a
state mismatch, surfacing as an uncaught exception) and no Credentials are
created: the persisted session's creds entry is exactly what it was. -/
theorem callback_state_mismatch_rejected (tok : TokenEndpoint) (s : Session)
    (c : Consent) (p : CallbackParams) (hc : s.consent = some c)
    (hst : p.state ≠ some c.state) :
    callback tok s p = .error (.exchangeFailed .stateMismatch) ∧
    (sessionAfterCallback tok s p).creds = s.creds := by
  have hcb : callback tok s p = .error (.exchangeFailed .stateMismatch) := by
    rw [callback_consent tok s c p hc, exchange_state_mismatch tok c p hst]
  refine ⟨hcb, ?_⟩
  unfold sessionAfterCallback
  rw [hcb]

/-- Witness for C1: the concrete mismatching callback `state=WRONG` against
the stored consent with state "S1" is rejected and leaves the session
without credentials. -/
theorem callback_state_mismatch_rejected_witness :
    callback tokOk sessionConsent paramsBadState
      = .error (.exchangeFailed .stateMismatch) ∧
    (sessionAfterCallback tokOk sessionConsent paramsBadState).creds = none := by
  have h := callback_state_mismatch_rejected tokOk sessionConsent demoConsent
    paramsBadState rfl (by decide)
  exact ⟨h.1, h.2.trans rfl⟩

/-- Counterexample to claim C2: a failure of the downstream token-exchange
call inside the `/callback` handler is not caught at the request-handling
boundary: the handler itself fails with the uncaught exception
(`Except.error`), which the framework turns into a generic server error
page rather than a user-facing message. -/
theorem callback_downstream_exception_uncaught :
    callback (fun _ _ => .error "connection reset") sessionConsent paramsGood
      = .error (.exchangeFailed (.tokenExchange "connection reset")) := by
  rfl

/-- Claim C2 as amended: exceptions from the downstream statement-execution
call in the index route are caught and converted into a flashed
user-facing message, but exceptions raised during the `/callback` exchange
are not caught and propagate out of the handler. -/
theorem index_catches_callback_propagates :
    (∀ (oc : OAuthClient) (v ch st : String) (exec : ExecEndpoint)
       (q e : String) (s : Session) (creds : Credentials),
       s.creds = some creds → exec creds q = .error e →
       (index oc v ch st exec (some q) s).response = .page [e] none) ∧
    (∀ (tok : TokenEndpoint) (s : Session) (c : Consent) (p : CallbackParams)
       (e : ExchangeError),
       s.consent = some c → exchange_callback_parameters tok c p = .error e →
       callback tok s p = .error (.exchangeFailed e)) := by
  constructor
  · intro oc v ch st exec q e s creds hcreds hexec
    rw [index_post oc v ch st exec q s creds hcreds, hexec]
  · intro tok s c p e hc hex
    rw [callback_consent tok s c p hc, hex]

/-- Witness for the amended C2: a concrete failing statement execution is
flashed by index, and a concrete state-mismatch exception escapes the
callback handler. -/
theorem index_catches_callback_propagates_witness :
    (index demoClient "v" "c" "s" execFail (some "SELECT 1") sessionAuth).response
      = .page ["Invalid refresh token"] none ∧
    callback tokOk sessionConsent paramsBadState
      = .error (.exchangeFailed .stateMismatch) :=
  ⟨index_catches_callback_propagates.1 demoClient "v" "c" "s" execFail
      "SELECT 1" "Invalid refresh token" sessionAuth demoCreds rfl rfl,
    index_catches_callback_propagates.2 tokOk sessionConsent demoConsent
      paramsBadState .stateMismatch rfl
      (exchange_state_mismatch tokOk demoConsent paramsBadState (by decide))⟩

/-- Counterexample to claim C3: after a concrete successful callback
exchange the consent record is still stored in the session — the handler
never removes `session["consent"]`, so the consent is not discarded. -/
theorem consent_not_discarded :
    (sessionAfterCallback tokOk sessionConsent paramsGood).consent
      = some demoConsent := by
  decide

/-- Claim C3 as amended: the stored Consent is used by the callback
exchange, but it is not removed from the session after the exchange
completes: it remains stored, and an identical duplicate callback
succeeds again (it is not consumed exactly once). -/
theorem callback_keeps_consent (tok : TokenEndpoint) (s : Session)
    (c : Consent) (p : CallbackParams) (creds : Credentials)
    (hc : s.consent = some c)
    (hex : exchange_callback_parameters tok c p = .ok creds) :
    callback tok s p = .ok ({ s with creds := some creds }, .redirect "index") ∧
    (sessionAfterCallback tok s p).consent = some c ∧
    callback tok (sessionAfterCallback tok s p) p
      = .ok ({ s with creds := some creds }, .redirect "index") := by
  have hcb : callback tok s p
      = .ok ({ s with creds := some creds }, .redirect "index") := by
    rw [callback_consent tok s c p hc, hex]
  have hafter : sessionAfterCallback tok s p = { s with creds := some creds } := by
    unfold sessionAfterCallback
    rw [hcb]
  refine ⟨hcb, ?_, ?_⟩
  · rw [hafter]
    exact hc
  · rw [hafter,
      callback_consent tok { s with creds := some creds } c p hc, hex]

/-- Witness for the amended C3: the concrete successful callback stores
credentials, keeps the consent in the session, and a replay of the same
callback succeeds again. -/
theorem callback_keeps_consent_witness :
    callback tokOk sessionConsent paramsGood
      = .ok ({ sessionConsent with creds := some demoCreds }, .redirect "index") ∧
    (sessionAfterCallback tokOk sessionConsent paramsGood).consent
      = some demoConsent ∧
    callback tokOk (sessionAfterCallback tokOk sessionConsent paramsGood) paramsGood
      = .ok ({ sessionConsent with creds := some demoCreds }, .redirect "index") :=
  callback_keeps_consent tokOk sessionConsent demoConsent paramsGood demoCreds
    rfl (exchange_success tokOk demoConsent paramsGood "ABC" demoCreds
      rfl rfl rfl rfl)

/-- Claim C4: a POST whose submitted statement makes the downstream
execution call fail yields a response that flashes the provider's error
message and renders the form with no result table, leaving the session
untouched. -/
theorem post_query_error_flashes (oc : OAuthClient) (v ch st : String)
    (exec : ExecEndpoint) (q e : String) (s : Session) (creds : Credentials)
    (hcreds : s.creds = some creds) (hexec : exec creds q = .error e) :
    index oc v ch st exec (some q) s =
      { session := s, response := .page [e] none,
        executedStatements := [q], logOutput := [] } := by
  rw [index_post oc v ch st exec q s creds hcreds, hexec]

/-- Witness for C4: the concrete failing query flashes the provider's
message and renders no table. -/
theorem post_query_error_flashes_witness :
    index demoClient "v" "c" "s" execFail (some "SELECT * FROM t") sessionAuth =
      { session := sessionAuth,
        response := .page ["Invalid refresh token"] none,
        executedStatements := ["SELECT * FROM t"], logOutput := [] } :=
  post_query_error_flashes demoClient "v" "c" "s" execFail "SELECT * FROM t"
    "Invalid refresh token" sessionAuth demoCreds rfl rfl

/-- Claim C5: a request from a session without credentials initiates a new
consent, stores it in the session and redirects to the authorization URL,
which carries the consent's state as its final query parameter; a GET from
a session with credentials renders the form instead. -/
theorem index_get_routing (oc : OAuthClient) (v ch st : String)
    (exec : ExecEndpoint) (formData : Option String) (s : Session) :
    (s.creds = none →
      index oc v ch st exec formData s =
        { session := { s with consent := some (initiate_consent oc v ch st) },
          response := .redirect (initiate_consent oc v ch st).auth_url,
          executedStatements := [], logOutput := [] } ∧
      ∃ pre, (initiate_consent oc v ch st).auth_url = pre ++ "&state=" ++ st) ∧
    (∀ creds : Credentials, s.creds = some creds →
      index oc v ch st exec none s =
        { session := s, response := .page [] none,
          executedStatements := [], logOutput := [] }) := by
  constructor
  · intro hnone
    constructor
    · exact index_unauth oc v ch st exec formData s hnone
    · exact ⟨oc.host ++ "/oidc/v1/authorize" ++ "?client_id=" ++ oc.client_id ++
        "&redirect_uri=" ++ oc.redirect_url ++
        "&scope=" ++ String.intercalate " " oc.scopes ++
        "&code_challenge=" ++ ch, rfl⟩
  · intro creds hcreds
    exact index_get_auth oc v ch st exec s creds hcreds

/-- Witness for C5: the concrete unauthenticated GET stores the consent and
redirects to a URL ending in the state, and the authenticated GET shows
the form. -/
theorem index_get_routing_witness :
    (index demoClient "ver" "chal" "S1" execOk none sessionEmpty =
      { session := { sessionEmpty with consent := some demoConsent },
        response := .redirect demoConsent.auth_url,
        executedStatements := [], logOutput := [] } ∧
      ∃ pre, demoConsent.auth_url = pre ++ "&state=" ++ "S1") ∧
    index demoClient "ver" "chal" "S1" execOk none sessionAuth =
      { session := sessionAuth, response := .page [] none,
        executedStatements := [], logOutput := [] } :=
  ⟨(index_get_routing demoClient "ver" "chal" "S1" execOk none sessionEmpty).1 rfl,
    (index_get_routing demoClient "ver" "chal" "S1" execOk none sessionAuth).2
      demoCreds rfl⟩

/-- Counterexample to claim C6: a request from a session whose stored
credentials are expired, where the downstream call fails with the
provider's invalid-refresh message, leaves the expired credentials in the
session — they are not cleared and the lookup does not become None. -/
theorem refresh_failure_keeps_creds :
    (index demoClient "v" "c" "s" execFail (some "SELECT 1") sessionExpired).session.creds
      = some expiredCreds := by
  decide

/-- Claim C6 as amended: when the downstream call for a session with stored
(possibly expired) credentials fails, the handler flashes the error and
leaves the session completely unchanged: the stored credentials are not
cleared and re-login is not forced. -/
theorem index_failure_leaves_session (oc : OAuthClient) (v ch st : String)
    (exec : ExecEndpoint) (q e : String) (s : Session) (creds : Credentials)
    (hcreds : s.creds = some creds) (hexec : exec creds q = .error e) :
    (index oc v ch st exec (some q) s).session = s ∧
    (index oc v ch st exec (some q) s).session.creds = some creds := by
  have h : index oc v ch st exec (some q) s =
      { session := s, response := .page [e] none,
        executedStatements := [q], logOutput := [] } := by
    rw [index_post oc v ch st exec q s creds hcreds, hexec]
  rw [h]
  exact ⟨rfl, hcreds⟩

/-- Witness for the amended C6: the concrete failing call against the
expired-credentials session keeps the credentials stored. -/
theorem index_failure_leaves_session_witness :
      (index demoClient "v" "c" "s" execFail (some "SELECT 1") sessionExpired).session
      = sessionExpired ∧
    (index demoClient "v" "c" "s" execFail (some "SELECT 1") sessionExpired).session.creds
      = some expiredCreds :=
  index_failure_leaves_session demoClient "v" "c" "s" execFail "SELECT 1"
    "Invalid refresh token" sessionExpired expiredCreds rfl rfl

/-- Claim C7: a callback with a valid authorization code, no error
parameter and a state matching the stored consent stores the exchanged
credentials in the session and redirects to the index page. -/
theorem callback_success_stores_creds (tok : TokenEndpoint) (s : Session)
    (c : Consent) (p : CallbackParams) (code : String) (creds : Credentials)
    (hc : s.consent = some c) (hstate : p.state = some c.state)
    (herr : p.error = none) (hcode : p.code = some code)
    (htok : tok code c.verifier = .ok creds) :
    callback tok s p = .ok ({ s with creds := some creds }, .redirect "index") ∧
    (sessionAfterCallback tok s p).creds = some creds := by
  have hex : exchange_callback_parameters tok c p = .ok creds :=
    exchange_success tok c p code creds hstate herr hcode htok
  have hcb : callback tok s p
      = .ok ({ s with creds := some creds }, .redirect "index") := by
    rw [callback_consent tok s c p hc, hex]
  refine ⟨hcb, ?_⟩
  unfold sessionAfterCallback
  rw [hcb]

/-- Witness for C7: the concrete callback `code=ABC&state=S1` against the
consent with state "S1" stores `demoCreds` and redirects to index. -/
theorem callback_success_stores_creds_witness :
    callback tokOk sessionConsent paramsGood
      = .ok ({ sessionConsent with creds := some demoCreds }, .redirect "index") ∧
    (sessionAfterCallback tokOk sessionConsent paramsGood).creds = some demoCreds :=
  callback_success_stores_creds tokOk sessionConsent demoConsent paramsGood
    "ABC" demoCreds rfl rfl rfl rfl rfl

/-- Claim C8: the handlers never put credential material into the log
output or into parts of the response they build themselves: the index
handler writes no log records, and its response is unchanged when the
stored tokens are replaced by any other tokens, as long as the downstream
endpoint's observable answers are the same — so the rendered body never
incorporates the tokens. -/
theorem creds_never_in_output (oc : OAuthClient) (v ch st : String)
    (exec1 exec2 : ExecEndpoint) (formData : Option String)
    (s1 s2 : Session) (c1 c2 : Credentials)
    (h1 : s1.creds = some c1) (h2 : s2.creds = some c2)
    (hobs : ∀ q, exec1 c1 q = exec2 c2 q) :
    (index oc v ch st exec1 formData s1).response
      = (index oc v ch st exec2 formData s2).response ∧
    (index oc v ch st exec1 formData s1).logOutput = [] := by
  constructor
  · match formData with
    | none =>
      rw [index_get_auth oc v ch st exec1 s1 c1 h1,
        index_get_auth oc v ch st exec2 s2 c2 h2]
    | some q =>
      rw [index_post oc v ch st exec1 q s1 c1 h1,
        index_post oc v ch st exec2 q s2 c2 h2, hobs q]
      cases exec2 c2 q <;> rfl
  · match formData with
    | none =>
      rw [index_get_auth oc v ch st exec1 s1 c1 h1]
    | some q =>
      rw [index_post oc v ch st exec1 q s1 c1 h1]
      cases exec1 c1 q <;> rfl

/-- Witness for C8: swapping the stored credentials of the authenticated
session for the distinct expired ones leaves the concrete response
identical, and the handler writes no log output. -/
theorem creds_never_in_output_witness :
    (index demoClient "v" "c" "s" execOk (some "SELECT 1") sessionAuth).response
      = (index demoClient "v" "c" "s" execOk (some "SELECT 1") sessionExpired).response ∧
    (index demoClient "v" "c" "s" execOk (some "SELECT 1") sessionAuth).logOutput = [] :=
  creds_never_in_output demoClient "v" "c" "s" execOk execOk (some "SELECT 1")
    sessionAuth sessionExpired demoCreds expiredCreds rfl rfl (fun _ => rfl)

/-- Claim C9: a callback arriving when the session holds no consent record
fails with the uncaught KeyError for "consent" — for every token endpoint,
so before any exchange could be attempted — and the persisted session's
credentials are exactly what they were (none stored). -/
theorem callback_no_consent_keyerror (tok : TokenEndpoint) (s : Session)
    (p : CallbackParams) (h : s.consent = none) :
    callback tok s p = .error (.keyError "consent") ∧
    (sessionAfterCallback tok s p).creds = s.creds := by
  have hcb : callback tok s p = .error (.keyError "consent") := by
    unfold callback
    rw [h]
  refine ⟨hcb, ?_⟩
  unfold sessionAfterCallback
  rw [hcb]

/-- Witness for C9: the concrete callback against the empty session raises
the KeyError and leaves the session without credentials. -/
theorem callback_no_consent_keyerror_witness :
    callback tokOk sessionEmpty paramsGood = .error (.keyError "consent") ∧
    (sessionAfterCallback tokOk sessionEmpty paramsGood).creds = none := by
  have h := callback_no_consent_keyerror tokOk sessionEmpty paramsGood rfl
  exact ⟨h.1, h.2.trans rfl⟩

/-- Claim C10: the statement-execution endpoint is never invoked for a
session without stored credentials: for every request (any method, any
submitted form data) the handler executes no statement and redirects to
the provider's authorization URL instead. -/
theorem no_exec_without_creds (oc : OAuthClient) (v ch st : String)
    (exec : ExecEndpoint) (formData : Option String) (s : Session)
    (h : s.creds = none) :
    (index oc v ch st exec formData s).executedStatements = [] ∧
    (index oc v ch st exec formData s).response
      = .redirect (initiate_consent oc v ch st).auth_url := by
  rw [index_unauth oc v ch st exec formData s h]
  exact ⟨rfl, rfl⟩

/-- Witness for C10: a concrete unauthenticated POST carrying a statement
redirects without executing it. -/
theorem no_exec_without_creds_witness :
    (index demoClient "ver" "chal" "S1" execOk (some "DROP TABLE t") sessionEmpty).executedStatements
      = [] ∧
    (index demoClient "ver" "chal" "S1" execOk (some "DROP TABLE t") sessionEmpty).response
      = .redirect demoConsent.auth_url :=
  no_exec_without_creds demoClient "ver" "chal" "S1" execOk (some "DROP TABLE t")
    sessionEmpty rfl

end FlaskOAuth
